import Mathlib

/-!
Verification of the header-augmenting static file server (`src/server.py`).

The repository contains a single source file.  Its own code is the class
`SecurityHeaderHandler`, which overrides the header-finalization hook
`end_headers` of Python's `SimpleHTTPRequestHandler` to append two fixed
security headers before delegating to the base implementation, and a
`__main__` block that prints a banner, constructs an `HTTPServer` on
`('localhost', 3000)` and calls `serve_forever()`.

The base classes (`SimpleHTTPRequestHandler`, `HTTPServer`) are not part of
the repository; where their behaviour decides a claim it is modelled from
the specification, and each such definition carries a doc comment starting
with `Modelled from the spec:`.
-/

/-- The state of the response-header machinery of one request handler:
`buffer` is the list of headers accumulated by `send_header` calls and not
yet written to the socket (Python's `_headers_buffer`), `wire` is the list
of headers already flushed to the socket for this response. -/
structure HandlerState where
  buffer : List (String × String)
  wire : List (String × String)
  deriving Repr, DecidableEq

/-- The fresh handler state at the start of a response: nothing buffered,
nothing written. -/
def HandlerState.init : HandlerState := ⟨[], []⟩

/-- `send_header(keyword, value)`: appends one header line to the internal
buffer; nothing reaches the socket yet. -/
def send_header (s : HandlerState) (keyword value : String) : HandlerState :=
  { s with buffer := s.buffer ++ [(keyword, value)] }

/-- Modelled from the spec: the base class's `end_headers` (the point at
which the underlying HTTP handling completes header emission).  It
finalizes the header block: every buffered header is written to the socket
in buffer order and the buffer is emptied. -/
def base_end_headers (s : HandlerState) : HandlerState :=
  { s with buffer := [], wire := s.wire ++ s.buffer }

/-- The repository's override (`SecurityHeaderHandler.end_headers`,
`src/server.py` lines 5-9): it sends the two security headers and then
delegates to the base class's `end_headers`. -/
def SecurityHeaderHandler.end_headers (s : HandlerState) : HandlerState :=
  base_end_headers
    (send_header
      (send_header s "Cross-Origin-Embedder-Policy" "require-corp")
      "Cross-Origin-Opener-Policy" "same-origin")

/-- The first injected header line. -/
def coepHeader : String × String :=
  ("Cross-Origin-Embedder-Policy", "require-corp")

/-- The second injected header line. -/
def coopHeader : String × String :=
  ("Cross-Origin-Opener-Policy", "same-origin")

/-- An HTTP response as observed by the client: status code, the emitted
header block (in wire order), and the body bytes. -/
structure Response where
  status : Nat
  headers : List (String × String)
  body : List Nat
  deriving Repr, DecidableEq

/-- A filesystem snapshot: a list of files, each an absolute path (as a
list of segments) paired with its contents (a list of bytes). -/
structure FileSystem where
  files : List (List String × List Nat)
  deriving Repr, DecidableEq

/-- Contents of the file at path `p`, if `p` names a file. -/
def FileSystem.lookup (fs : FileSystem) (p : List String) : Option (List Nat) :=
  (fs.files.find? (fun e => e.1 = p)).map (fun e => e.2)

/-- Modelled from the spec: the base server's request-path resolution
("map the request path to a file under the process's current working
directory; directory traversal outside the root must be rejected").
`resolveFrom stack segs` walks the remaining segments `segs` with `stack`
the already-resolved segments in reverse order; empty and `.` segments are
skipped, `..` pops one segment and is a rejected traversal when the walk is
already at the root.  `none` means the path attempts to escape the root. -/
def resolveFrom (stack : List String) : List String → Option (List String)
  | [] => some stack.reverse
  | seg :: rest =>
    if seg = "" ∨ seg = "." then resolveFrom stack rest
    else if seg = ".." then
      match stack with
      | [] => none
      | _ :: stack2 => resolveFrom stack2 rest
    else resolveFrom (seg :: stack) rest

/-- Resolution of a request path (its slash-separated segments) against the
served root: `some rel` is the in-root relative path, `none` a rejected
escape attempt. -/
def resolvePath (p : List String) : Option (List String) :=
  resolveFrom [] p

/-- Modelled from the spec: the body of the base server's error page.  The
spec leaves its exact bytes unspecified; it is modelled as a fixed function
of the status code, read from no file. -/
def errorBody (code : Nat) : List Nat :=
  [code / 100 % 256, code / 10 % 10, code % 10]

/-- Modelled from the spec: emission of one response, parameterized by the
header-finalization hook `eh` in use (the base `end_headers` or the
repository's override).  The base handling buffers its default headers
(Server, Date, Content-Type, Content-Length) with `send_header` and then
finalizes the block with `eh`; `date` stands for the wall-clock value the
Date header carries. -/
def writeResponse (eh : HandlerState → HandlerState) (status : Nat)
    (date : Nat) (ctype : String) (body : List Nat) : Response :=
  let s1 := send_header HandlerState.init "Server" "SimpleHTTP"
  let s2 := send_header s1 "Date" (toString date)
  let s3 := send_header s2 "Content-Type" ctype
  let s4 := send_header s3 "Content-Length" (toString body.length)
  { status := status, headers := (eh s4).wire, body := body }

/-- Modelled from the spec: the base server's handling of one GET request,
parameterized by the header-finalization hook `eh`.  A path that attempts
to escape the root is refused with 403; a resolved path naming an existing
file under the root is served with 200 and the file's exact bytes; any
other path yields 404.  The served root is `root` (the process's working
directory as absolute path segments). -/
def handleWith (eh : HandlerState → HandlerState) (fs : FileSystem)
    (root : List String) (date : Nat) (path : List String) : Response :=
  match resolvePath path with
  | none => writeResponse eh 403 date "text/html" (errorBody 403)
  | some rel =>
    match fs.lookup (root ++ rel) with
    | some contents => writeResponse eh 200 date "application/octet-stream" contents
    | none => writeResponse eh 404 date "text/html" (errorBody 404)

/-- The base static file server: handling with the base `end_headers`. -/
def baseHandle (fs : FileSystem) (root : List String) (date : Nat)
    (path : List String) : Response :=
  handleWith base_end_headers fs root date path

/-- The repository's server: the same handling, but header finalization
goes through `SecurityHeaderHandler.end_headers`. -/
def secHandle (fs : FileSystem) (root : List String) (date : Nat)
    (path : List String) : Response :=
  handleWith SecurityHeaderHandler.end_headers fs root date path

/-- The header lines of `hs` whose name is `k`. -/
def headersNamed (hs : List (String × String)) (k : String) :
    List (String × String) :=
  hs.filter (fun h => h.1 = k)

/-- Index of the first header named `k` in the emitted block. -/
def idxOf (hs : List (String × String)) (k : String) : Nat :=
  hs.findIdx (fun h => h.1 = k)

/-- The header block with timestamp-bearing lines (Date) removed. -/
def stripDate (hs : List (String × String)) : List (String × String) :=
  hs.filter (fun h => h.1 ≠ "Date")

/-- The hardcoded port constant of the `__main__` block
(`src/server.py` line 12). -/
def port : Nat := 3000

/-- The startup banner the `__main__` block prints (`src/server.py`
line 13): the f-string with the port interpolated. -/
def banner : String :=
  "Serving on http://localhost:" ++ toString port ++ " (With Secure Headers)"

/-- The server address literal passed to the `HTTPServer` constructor
(`src/server.py` line 14).  The source reads neither `sys.argv` nor any
environment variable (the `sys` import is unused), so the address is the
same for every command line `argv` and environment `envVars`. -/
def serverAddress (argv : List String) (envVars : List (String × String)) :
    String × Nat :=
  ("localhost", port)

/-- Modelled from the spec: name resolution of the bind host.  `HTTPServer`
uses the IPv4 address family, under which the hardcoded host string
`localhost` denotes the loopback address `127.0.0.1`. -/
def resolveHost : String → String
  | "localhost" => "127.0.0.1"
  | h => h

/-- One observable event of the process. -/
inductive Event
  | printStdout (line : String)
  | bind (host : String) (p : Nat)
  | serveLoop
  | raiseExc (name : String)
  | exited (code : Nat)
  deriving Repr, DecidableEq

/-- Whether an event is a bind attempt. -/
def Event.isBind : Event → Bool
  | .bind _ _ => true
  | _ => false

/-- Lines the process writes to standard output. -/
def stdoutLines (t : List Event) : List String :=
  t.filterMap (fun e => match e with
    | .printStdout l => some l
    | _ => none)

/-- Exit code of a trace: the code of its last `exited` event. -/
def exitCode (t : List Event) : Option Nat :=
  (t.filterMap (fun e => match e with
    | .exited c => some c
    | _ => none)).getLast?

/-- Modelled from the spec: the observable trace of the `__main__` block
(`src/server.py` lines 11-15), as a function of whether the port is
already bound by another process.  The block prints the banner, then
constructs `HTTPServer(('localhost', port), SecurityHeaderHandler)`, whose
single bind attempt raises `OSError` when the port is in use; the source
wraps nothing in exception handling, so the error propagates and the
interpreter exits with status 1.  Otherwise `serve_forever()` loops until
the process is externally terminated; an interrupt raises
`KeyboardInterrupt` inside the loop, which the source also leaves
uncaught, so the interpreter exits with status 1 without an explicit
`server_close`. -/
def mainTrace (portInUse : Bool) : List Event :=
  Event.printStdout banner ::
    Event.bind "localhost" port ::
    (if portInUse then
      [Event.raiseExc "OSError", Event.exited 1]
    else
      [Event.serveLoop, Event.raiseExc "KeyboardInterrupt", Event.exited 1])

/-- Helper: the emitted header block of every response of the repository's
handler is the block the base handler would emit, followed by exactly the
two injected headers; status and body are those of the base handler. -/
theorem secHandle_vs_baseHandle (fs : FileSystem) (root : List String)
    (date : Nat) (path : List String) :
    (secHandle fs root date path).status = (baseHandle fs root date path).status ∧
    (secHandle fs root date path).body = (baseHandle fs root date path).body ∧
    (secHandle fs root date path).headers
      = (baseHandle fs root date path).headers ++ [coepHeader, coopHeader] := by
  unfold secHandle baseHandle handleWith
  split
  · exact ⟨rfl, rfl, rfl⟩
  · split
    · exact ⟨rfl, rfl, rfl⟩
    · exact ⟨rfl, rfl, rfl⟩

/-- Helper: the emitted header block of every response of the repository's
handler has the shape base headers then the two injected ones. -/
theorem secHandle_headers_shape (fs : FileSystem) (root : List String)
    (date : Nat) (path : List String) :
    ∃ (ctype : String) (n : Nat), (secHandle fs root date path).headers =
      [("Server", "SimpleHTTP"), ("Date", toString date), ("Content-Type", ctype),
       ("Content-Length", toString n), coepHeader, coopHeader] := by
  unfold secHandle handleWith
  split
  · exact ⟨"text/html", (errorBody 403).length, rfl⟩
  · rename_i rel hres
    split
    · rename_i contents hfile
      exact ⟨"application/octet-stream", contents.length, rfl⟩
    · exact ⟨"text/html", (errorBody 404).length, rfl⟩

/-- C1: every response the server produces — success or error, including
404 for nonexistent paths — carries `Cross-Origin-Embedder-Policy:
require-corp` and `Cross-Origin-Opener-Policy: same-origin`, each present
exactly once in the emitted header block. -/
theorem secHandle_injects_each_header_exactly_once (fs : FileSystem)
    (root : List String) (date : Nat) (path : List String) :
    headersNamed (secHandle fs root date path).headers
        "Cross-Origin-Embedder-Policy" = [coepHeader] ∧
    headersNamed (secHandle fs root date path).headers
        "Cross-Origin-Opener-Policy" = [coopHeader] := by
  obtain ⟨ctype, n, h⟩ := secHandle_headers_shape fs root date path
  rw [h]
  constructor <;> simp [headersNamed, coepHeader, coopHeader]

/-- C2 counterexample: the claim that the injected headers take effect in
the emitted header block before the base-contributed headers is false: in
the concrete 404 response to `GET /` on an empty filesystem, the
Cross-Origin-Embedder-Policy header does not come before the Content-Type
header — it comes after it. -/
theorem secHandle_injected_not_before_base_cex :
    ¬ idxOf (secHandle ⟨[]⟩ [] 0 []).headers "Cross-Origin-Embedder-Policy"
      < idxOf (secHandle ⟨[]⟩ [] 0 []).headers "Content-Type" := by
  decide

/-- C2 amended: the two injected headers are added at the
header-finalization step, immediately before the block is flushed and
sent — the override appends them to the header buffer and then delegates
to the base finalization, which flushes the whole buffer at once — so in
the emitted header block they appear after the base-contributed headers,
as the final two lines. -/
theorem secHandle_injects_at_finalization :
    (∀ s : HandlerState, SecurityHeaderHandler.end_headers s
      = base_end_headers { s with
          buffer := s.buffer ++ [coepHeader, coopHeader] }) ∧
    (∀ (fs : FileSystem) (root : List String) (date : Nat)
        (path : List String),
      (secHandle fs root date path).headers
        = (baseHandle fs root date path).headers ++ [coepHeader, coopHeader]) := by
  constructor
  · intro s
    simp [SecurityHeaderHandler.end_headers, send_header, base_end_headers,
      coepHeader, coopHeader]
  · intro fs root date path
    exact (secHandle_vs_baseHandle fs root date path).2.2

/-- C3: a request whose path resolves to an existing file under the served
root is answered with status 200, a body equal byte-for-byte to the file's
contents, and both injected security headers. -/
theorem secHandle_serves_existing_file (fs : FileSystem) (root : List String)
    (date : Nat) (path rel : List String) (contents : List Nat)
    (hres : resolvePath path = some rel)
    (hfile : fs.lookup (root ++ rel) = some contents) :
    (secHandle fs root date path).status = 200 ∧
    (secHandle fs root date path).body = contents ∧
    coepHeader ∈ (secHandle fs root date path).headers ∧
    coopHeader ∈ (secHandle fs root date path).headers := by
  unfold secHandle handleWith
  simp only [hres, hfile]
  refine ⟨rfl, rfl, ?_, ?_⟩ <;>
    simp [writeResponse, send_header, base_end_headers,
      SecurityHeaderHandler.end_headers, HandlerState.init,
      coepHeader, coopHeader]

/-- Witness for C3 at a concrete filesystem and request. -/
theorem secHandle_serves_existing_file_witness :
    (secHandle ⟨[(["r", "a.txt"], [104, 105])]⟩ ["r"] 7 ["a.txt"]).status = 200 ∧
    (secHandle ⟨[(["r", "a.txt"], [104, 105])]⟩ ["r"] 7 ["a.txt"]).body = [104, 105] ∧
    coepHeader ∈ (secHandle ⟨[(["r", "a.txt"], [104, 105])]⟩ ["r"] 7 ["a.txt"]).headers ∧
    coopHeader ∈ (secHandle ⟨[(["r", "a.txt"], [104, 105])]⟩ ["r"] 7 ["a.txt"]).headers :=
  secHandle_serves_existing_file ⟨[(["r", "a.txt"], [104, 105])]⟩ ["r"] 7
    ["a.txt"] ["a.txt"] [104, 105] (by decide) (by decide)

/-- C4: a request path with traversal segments that escape the served root
is refused with 403 (hence non-200), its body is the fixed error page, and
the response is computed without consulting the filesystem at all — so the
contents of no file, inside or outside the root, are returned. -/
theorem secHandle_refuses_escaping_path (fs : FileSystem) (root : List String)
    (date : Nat) (path : List String) (hesc : resolvePath path = none) :
    (secHandle fs root date path).status = 403 ∧
    (secHandle fs root date path).status ≠ 200 ∧
    (secHandle fs root date path).body = errorBody 403 ∧
    secHandle fs root date path = secHandle ⟨[]⟩ root date path := by
  unfold secHandle handleWith
  simp only [hesc]
  refine ⟨rfl, ?_, rfl, ?_⟩
  · show (403 : Nat) ≠ 200
    decide
  · trivial

/-- Witness for C4 at a concrete escaping request. -/
theorem secHandle_refuses_escaping_path_witness :
    (secHandle ⟨[(["etc", "passwd"], [42])]⟩ ["r"] 0 ["..", "etc", "passwd"]).status = 403 ∧
    (secHandle ⟨[(["etc", "passwd"], [42])]⟩ ["r"] 0 ["..", "etc", "passwd"]).status ≠ 200 ∧
    (secHandle ⟨[(["etc", "passwd"], [42])]⟩ ["r"] 0 ["..", "etc", "passwd"]).body = errorBody 403 ∧
    secHandle ⟨[(["etc", "passwd"], [42])]⟩ ["r"] 0 ["..", "etc", "passwd"]
      = secHandle ⟨[]⟩ ["r"] 0 ["..", "etc", "passwd"] :=
  secHandle_refuses_escaping_path ⟨[(["etc", "passwd"], [42])]⟩ ["r"] 0
    ["..", "etc", "passwd"] (by decide)

/-- C5: with port 3000 already bound, the trace of the `__main__` block is
the banner, a single bind attempt, an uncaught OSError and exit status 1:
the process fails fast with a non-zero exit and never retries the bind. -/
theorem mainTrace_port_in_use_fails_fast :
    mainTrace true = [Event.printStdout banner, Event.bind "localhost" 3000,
      Event.raiseExc "OSError", Event.exited 1] ∧
    ((mainTrace true).filter Event.isBind).length = 1 ∧
    exitCode (mainTrace true) = some 1 ∧ (1 : Nat) ≠ 0 :=
  ⟨rfl, rfl, rfl, by decide⟩

/-- C6: the bind address is the hardcoded ('localhost', 3000) whatever the
command line and environment are; under the IPv4 address family the host
constant denotes 127.0.0.1; and every run performs exactly one bind, at
that address. -/
theorem serverAddress_hardcoded :
    (∀ (argv : List String) (envVars : List (String × String)),
      serverAddress argv envVars = ("localhost", 3000)) ∧
    resolveHost "localhost" = "127.0.0.1" ∧
    port = 3000 ∧
    (∀ portInUse, (mainTrace portInUse).filter Event.isBind
      = [Event.bind "localhost" 3000]) := by
  refine ⟨fun _ _ => rfl, rfl, rfl, fun p => ?_⟩
  cases p <;> rfl

/-- C7: whatever happens to the port, the process writes exactly the one
banner line `Serving on http://localhost:3000 (With Secure Headers)` to
standard output, as its very first event (hence before the serve loop),
and nothing else. -/
theorem mainTrace_stdout_exactly_banner :
    (∀ portInUse, stdoutLines (mainTrace portInUse)
      = ["Serving on http://localhost:3000 (With Secure Headers)"]) ∧
    (∀ portInUse, (mainTrace portInUse).head?
      = some (Event.printStdout banner)) ∧
    banner = "Serving on http://localhost:3000 (With Secure Headers)" := by
  refine ⟨fun p => ?_, fun p => rfl, rfl⟩
  cases p <;> rfl

/-- C8: two runs of the same GET request against the same filesystem can
differ at most in the Date header: the statuses, the bodies, and the
Date-stripped header blocks coincide for any two request times. -/
theorem secHandle_two_runs_agree (fs : FileSystem) (root : List String)
    (d1 d2 : Nat) (path : List String) :
    (secHandle fs root d1 path).status = (secHandle fs root d2 path).status ∧
    (secHandle fs root d1 path).body = (secHandle fs root d2 path).body ∧
    stripDate (secHandle fs root d1 path).headers
      = stripDate (secHandle fs root d2 path).headers := by
  unfold secHandle handleWith
  split
  · refine ⟨rfl, rfl, ?_⟩
    simp [stripDate, writeResponse, send_header, base_end_headers,
      SecurityHeaderHandler.end_headers, HandlerState.init]
  · split
    · refine ⟨rfl, rfl, ?_⟩
      simp [stripDate, writeResponse, send_header, base_end_headers,
        SecurityHeaderHandler.end_headers, HandlerState.init]
    · refine ⟨rfl, rfl, ?_⟩
      simp [stripDate, writeResponse, send_header, base_end_headers,
        SecurityHeaderHandler.end_headers, HandlerState.init]

/-- C9 counterexample: the claim that the process exits with code 0 when
externally terminated is false: on external interrupt the trace ends with
exit status 1, because the `__main__` block leaves KeyboardInterrupt
uncaught. -/
theorem mainTrace_interrupt_exit_nonzero_cex :
    exitCode (mainTrace false) = some 1 ∧ (some 1 : Option Nat) ≠ some 0 :=
  ⟨rfl, by decide⟩

/-- C9 amended: the serve loop runs until the process is externally
terminated; the interrupt propagates as an uncaught KeyboardInterrupt, so
the process exits with the non-zero status 1 (there is no exit-0 path and
no explicit listener close); a bind failure also exits with status 1, and
then the serve loop is never entered. -/
theorem mainTrace_always_exits_nonzero :
    (∀ portInUse, exitCode (mainTrace portInUse) = some 1) ∧
    Event.serveLoop ∈ mainTrace false ∧
    Event.raiseExc "KeyboardInterrupt" ∈ mainTrace false ∧
    Event.serveLoop ∉ mainTrace true := by
  refine ⟨fun p => ?_, ?_, ?_, ?_⟩
  · cases p <;> rfl
  · simp [mainTrace]
  · simp [mainTrace]
  · simp [mainTrace]

/-- C10: the repository's handler refines the base static-file handler:
for every request it produces the same status, the same body, and the base
handler's header block with exactly the two security headers appended at
the finalization step; and the override delegates to the base
finalization, merely appending the two headers to the buffer first. -/
theorem secHandle_refines_base :
    (∀ (fs : FileSystem) (root : List String) (date : Nat)
        (path : List String),
      (secHandle fs root date path).status
          = (baseHandle fs root date path).status ∧
      (secHandle fs root date path).body
          = (baseHandle fs root date path).body ∧
      (secHandle fs root date path).headers
          = (baseHandle fs root date path).headers ++ [coepHeader, coopHeader]) ∧
    (∀ s : HandlerState, SecurityHeaderHandler.end_headers s
      = base_end_headers (send_header (send_header s
          "Cross-Origin-Embedder-Policy" "require-corp")
          "Cross-Origin-Opener-Policy" "same-origin")) :=
  ⟨secHandle_vs_baseHandle, fun _ => rfl⟩
